import Mathlib

/-!
Verification of the email monitoring and notification pipeline of the
`spam_detection` repository, as a shallow embedding in Lean 4.

The embedding follows the Python sources:
  * `app/services/imap_service.py`  — `IMAPService` (stateful mail session)
  * `app/workers/tasks.py`          — `monitor_user_emails` (monitoring job)
  * `app/api/monitoring.py`         — `sse_endpoint` (notification stream)
  * `app/services/spam_classifier.py` — `SpamClassifier`

Machine-level details (sockets, the IMAP wire protocol, Redis) are
abstracted: the remote mailbox is a map from folder names to lists of
messages in server-native ascending order, and the underlying
`imapclient.IMAPClient` method calls are modelled as operations on that
map.  External library functions (NLTK tokenization, the frozen
scikit-learn model) are abstract deterministic function fields, which is
faithful because the Python code treats them as frozen after load.
-/

deriving instance DecidableEq for Except

/-- A message stored in a server folder.  `uid` is the folder-scoped id the
IMAP search returns; `seen`/`deleted` are the `\Seen` and `\Deleted` flags. -/
structure Msg where
  uid : Nat
  seen : Bool
  deleted : Bool
deriving DecidableEq, Repr

/-- Server state: each folder name designates a list of messages in
server-native ascending order (the order `IMAPClient.search` returns). -/
def Mailbox : Type := String → List Msg

/-- Replace the contents of one folder. -/
def setFolder (mb : Mailbox) (f : String) (msgs : List Msg) : Mailbox :=
  fun g => if g = f then msgs else mb g

namespace IMAPClientM

/-- Model of `IMAPClient.search(['UNSEEN'] or ['ALL'])` on the selected folder:
ids of the matching messages in server-native ascending order. -/
def search (msgs : List Msg) (onlyUnread : Bool) : List Nat :=
  (if onlyUnread then msgs.filter (fun m => !m.seen) else msgs).map Msg.uid

/-- Model of `IMAPClient.copy(ids, dest)`: append copies of the matching messages of
the selected folder `src` to `dst` (flags are carried along). -/
def copy (mb : Mailbox) (ids : List Nat) (src dst : String) : Mailbox :=
  setFolder mb dst (mb dst ++ (mb src).filter (fun m => m.uid ∈ ids))

/-- Model of `IMAPClient.add_flags(ids, [\Deleted])` on the selected folder. -/
def add_flags_deleted (mb : Mailbox) (ids : List Nat) (folder : String) : Mailbox :=
  setFolder mb folder
    ((mb folder).map (fun m => if m.uid ∈ ids then { m with deleted := true } else m))

/-- Model of `IMAPClient.expunge()`: permanently remove every message flagged
`\Deleted` from the selected folder. -/
def expunge (mb : Mailbox) (folder : String) : Mailbox :=
  setFolder mb folder ((mb folder).filter (fun m => !m.deleted))

end IMAPClientM

/-- The state of the underlying `imapclient.IMAPClient` object once it has
been constructed: whether `logout()` has been issued, and which folder is
currently selected (`select_folder`) together with its read-only flag. -/
structure ClientM where
  loggedOut : Bool
  selected : Option (String × Bool)
deriving DecidableEq, Repr

/-- Model of `IMAPService` instance state: `self.client` is `None` until `connect()`
succeeds.  Crucially, `disconnect()` calls `self.client.logout()` but never
resets `self.client` to `None` (see `IMAPService.disconnect` below). -/
structure IMAPService where
  client : Option ClientM
deriving DecidableEq, Repr

namespace IMAPService

/-- Errors an operation can surface.  `precondition` is the service's own
`raise RuntimeError("Not connected to IMAP server")` guard; `protocol` is a
failure raised from inside the underlying client library (network error,
command issued after logout, ...). -/
inductive OpError where
  | precondition (msg : String)
  | protocol
deriving DecidableEq, Repr

/-- Model of `__init__`: `self.client: Optional[IMAPClient] = None`. -/
def init : IMAPService := ⟨none⟩

/-- Model of `connect()`: constructs and logs in an `IMAPClient`, storing it in
`self.client`; any failure is re-raised as
`ConnectionError("Failed to connect to IMAP server: " + e)`.
`ok` abstracts whether the server/network lets the login succeed. -/
def connect (_s : IMAPService) (ok : Bool) (errDetail : String) :
    Except String IMAPService :=
  if ok then .ok ⟨some ⟨false, none⟩⟩
  else .error ("Failed to connect to IMAP server: " ++ errDetail)

/-- Model of `disconnect()`: if `self.client` is set, `logout()` is attempted (errors
swallowed).  `self.client` itself is left untouched — it is NOT reset to
`None`, so the `if not self.client` precondition guard of later operations
still passes on a closed session. -/
def disconnect (s : IMAPService) : IMAPService :=
  match s.client with
  | none => s
  | some c => ⟨some { c with loggedOut := true }⟩

/-- The literal message of the precondition guard in every operation. -/
def notConnectedMsg : String := "Not connected to IMAP server"

/-- Model of `list_folders()`: precondition guard, then `self.client.list_folders()`.
`serverFolders` abstracts the names the server would report. -/
def list_folders (s : IMAPService) (serverFolders : List String) :
    Except OpError (IMAPService × List String) :=
  match s.client with
  | none => .error (.precondition notConnectedMsg)
  | some c =>
      if c.loggedOut then .error .protocol
      else .ok (s, serverFolders)

/-- The pagination step of `list_emails` exactly as coded:
`messages.reverse()` (most recent first) then the Python slice
`messages[offset : offset + limit]`, which for a non-negative offset is
drop-then-take.  No cap is applied to `limit` here. -/
def paginate (messages : List Nat) (limit offset : Nat) : List Nat :=
  ((messages.reverse).drop offset).take limit

/-- Order in which `self.client.fetch(requested, ...)` hands the results
back: `fetch_data` is a dict keyed by message id — one entry per requested
id that exists in the folder — iterated by `fetch_data.items()` in the
server's FETCH-response order, i.e. the folder's native order, NOT the
order of the `requested` list.  `native` is the folder's server-native id
sequence; `dedup` reflects that a dict holds each key once. -/
def fetch_response_order (native requested : List Nat) : List Nat :=
  native.dedup.filter (fun i => i ∈ requested)

/-- Model of `list_emails(folder, limit=50, offset=0, only_unread=False)`:
precondition guard, `select_folder(folder, readonly=True)`, search by
`UNSEEN`/`ALL`, reverse to most-recent-first, slice `[offset:offset+limit]`
to obtain `paginated_messages`, fetch those ids, then build the result by
iterating `fetch_data.items()` — so the returned ids come back in the
server's fetch-response (native) order, not in the paginated
most-recent-first order.  The returned list holds the message ids of the
metadata dictionaries. -/
def list_emails (s : IMAPService) (mb : Mailbox) (folder : String)
    (limit : Nat) (offset : Nat) (only_unread : Bool) :
    Except OpError (IMAPService × List Nat) :=
  match s.client with
  | none => .error (.precondition notConnectedMsg)
  | some c =>
      if c.loggedOut then .error .protocol
      else
        .ok (⟨some { c with selected := some (folder, true) }⟩,
             fetch_response_order ((mb folder).map Msg.uid)
               (paginate (IMAPClientM.search (mb folder) only_unread) limit offset))

/-- Model of `get_unread_emails(folder)`: `list_emails(folder, only_unread=True,
limit=100)` with the default `offset=0`. -/
def get_unread_emails (s : IMAPService) (mb : Mailbox) (folder : String) :
    Except OpError (IMAPService × List Nat) :=
  list_emails s mb folder 100 0 true

/-- Model of `get_email_detail(email_id, folder)`: precondition guard,
`select_folder(folder, readonly=True)`, fetch the message; a missing id
raises `ValueError` (modelled as a protocol-level `NotFound` is outside this
embedding's claims, so a missing id is reported as `.protocol`). -/
def get_email_detail (s : IMAPService) (mb : Mailbox) (email_id : Nat)
    (folder : String) : Except OpError (IMAPService × Msg) :=
  match s.client with
  | none => .error (.precondition notConnectedMsg)
  | some c =>
      if c.loggedOut then .error .protocol
      else
        match (mb folder).find? (fun m => m.uid = email_id) with
        | none => .error .protocol
        | some m => .ok (⟨some { c with selected := some (folder, true) }⟩, m)

/-- Model of `mark_as_read(email_id, folder)`: precondition guard,
`select_folder(folder)` (read-write), `add_flags([email_id], [\Seen])`. -/
def mark_as_read (s : IMAPService) (mb : Mailbox) (email_id : Nat)
    (folder : String) : Except OpError (IMAPService × Mailbox) :=
  match s.client with
  | none => .error (.precondition notConnectedMsg)
  | some c =>
      if c.loggedOut then .error .protocol
      else
        .ok (⟨some { c with selected := some (folder, false) }⟩,
             setFolder mb folder
               ((mb folder).map
                 (fun m => if m.uid = email_id then { m with seen := true } else m)))

/-- Model of `mark_as_unread(email_id, folder)`: same but removes `\Seen`. -/
def mark_as_unread (s : IMAPService) (mb : Mailbox) (email_id : Nat)
    (folder : String) : Except OpError (IMAPService × Mailbox) :=
  match s.client with
  | none => .error (.precondition notConnectedMsg)
  | some c =>
      if c.loggedOut then .error .protocol
      else
        .ok (⟨some { c with selected := some (folder, false) }⟩,
             setFolder mb folder
               ((mb folder).map
                 (fun m => if m.uid = email_id then { m with seen := false } else m)))

/-- Model of `move_email(email_id, source_folder, dest_folder)`: precondition guard,
`select_folder(source_folder)` (read-write), then the three-step non-atomic
sequence: `copy([id], dest)`, `add_flags([id], [\Deleted])`, `expunge()`. -/
def move_email (s : IMAPService) (mb : Mailbox) (email_id : Nat)
    (source_folder dest_folder : String) :
    Except OpError (IMAPService × Mailbox) :=
  match s.client with
  | none => .error (.precondition notConnectedMsg)
  | some c =>
      if c.loggedOut then .error .protocol
      else
        .ok (⟨some { c with selected := some (source_folder, false) }⟩,
             IMAPClientM.expunge
               (IMAPClientM.add_flags_deleted
                 (IMAPClientM.copy mb [email_id] source_folder dest_folder)
                 [email_id] source_folder)
               source_folder)

/-- Model of `delete_email(email_id, folder)`: try `move_email(id, folder, "Trash")`;
on any failure, fall back to flagging `\Deleted` in place and expunging. -/
def delete_email (s : IMAPService) (mb : Mailbox) (email_id : Nat)
    (folder : String) : Except OpError (IMAPService × Mailbox) :=
  match move_email s mb email_id folder "Trash" with
  | .ok r => .ok r
  | .error _ =>
      match s.client with
      | none => .error (.precondition notConnectedMsg)
      | some c =>
          if c.loggedOut then .error .protocol
          else
            .ok (⟨some { c with selected := some (folder, false) }⟩,
                 IMAPClientM.expunge
                   (IMAPClientM.add_flags_deleted mb [email_id] folder) folder)

end IMAPService

/-! ## Monitoring job (`app/workers/tasks.py`, `monitor_user_emails`) -/

/-- Per-user monitoring state, the fields of `app.models.user.User` that
`monitor_user_emails` reads and writes. -/
structure UserRec where
  is_active : Bool
  is_monitoring : Bool
  last_sync_time : Option Nat
deriving DecidableEq, Repr

/-- Events published through `publish_email_event` to the per-user Redis
channel, with the payload fields the task actually sets.  Timestamps are a
single job-level clock value. -/
inductive Event where
  | spam_detected (email_id : Nat) (subject from_ : String) (confidence : ℚ)
      (timestamp : Nat)
  | new_email (email_id : Nat) (subject from_ : String) (timestamp : Nat)
  | error (msg : String) (email_id : Option Nat) (timestamp : Nat)
deriving DecidableEq, Repr

/-- Mail-session operations a job invocation performs, in order. -/
inductive MailOp where
  | connect
  | getUnread
  | fetchDetail (id : Nat)
  | move (id : Nat) (src dst : String)
  | disconnect
deriving DecidableEq, Repr

/-- The fields of the full email dictionary that the task consumes after
`get_email_detail`. -/
structure EmailDetail where
  subject : String
  from_ : String
  body_plain : String
  body_html : String
deriving DecidableEq, Repr

/-- One entry of the metadata list returned by `get_unread_emails`; the loop
body only reads `email["id"]`. -/
structure EmailMeta where
  id : Nat
deriving DecidableEq, Repr

/-- The environment one `monitor_user_emails(user_id)` invocation runs in:
the database row for the user, and the outcome of each external call.
Errors carry the exception's string form, which is what the task publishes.
`connect` stands for entering `with IMAPService(...)`; its error string is
the `ConnectionError` message produced by `IMAPService.connect`. -/
structure World where
  user : Option UserRec
  decrypt : Except String String
  classifierLoad : Except String Unit
  connect : Except String Unit
  getUnread : Except String (List EmailMeta)
  fetch : Nat → Except String EmailDetail
  classify : String → Except String (Bool × ℚ)
  moveResult : Nat → Except String Unit
  now : Nat

/-- The classification input built by the task:
`f"{subject} {body_plain} {body_html}"`. -/
def emailText (d : EmailDetail) : String :=
  d.subject ++ " " ++ d.body_plain ++ " " ++ d.body_html

/-- One iteration of the `for email in unread_emails` loop: the events it
publishes and the session operations it performs.  Any exception from the
fetch or the classification is caught and turned into one `error` event
carrying the message id; a move failure is only printed (no event). -/
def processEmail (w : World) (e : EmailMeta) : List Event × List MailOp :=
  match w.fetch e.id with
  | .error msg => ([.error msg (some e.id) w.now], [.fetchDetail e.id])
  | .ok d =>
      match w.classify (emailText d) with
      | .error msg => ([.error msg (some e.id) w.now], [.fetchDetail e.id])
      | .ok (is_spam, confidence) =>
          if is_spam then
            match w.moveResult e.id with
            | .ok _ =>
                ([.spam_detected e.id d.subject d.from_ confidence w.now],
                 [.fetchDetail e.id, .move e.id "INBOX" "Spam"])
            | .error _ =>
                ([], [.fetchDetail e.id, .move e.id "INBOX" "Spam"])
          else
            ([.new_email e.id d.subject d.from_ w.now], [.fetchDetail e.id])

/-- Everything observable about one job invocation: the events published to
the user's channel, the mail-session operations performed, and the user row
as it stands after the task (the committed `last_sync_time`). -/
structure JobResult where
  events : List Event
  mailOps : List MailOp
  user : Option UserRec
deriving Repr

/-- Model of `monitor_user_emails(user_id)`.  Control flow as in the source:
load the user and return silently unless active and monitoring; decrypt the
password; obtain the classifier; open the session with `with IMAPService`;
list unread; process each message independently; after the loop commit
`last_sync_time = utcnow()`.  Any exception outside the per-message loop is
caught at the top level and published as one `error` event without an
email id, leaving `last_sync_time` unchanged.  When `connect` itself fails
the context manager body is never entered, so the invocation performs no
further session operation and does not retry. -/
def monitor_user_emails (w : World) : JobResult :=
  match w.user with
  | none => ⟨[], [], none⟩
  | some u =>
      if !u.is_active || !u.is_monitoring then ⟨[], [], some u⟩
      else
        match w.decrypt with
        | .error msg => ⟨[.error msg none w.now], [], some u⟩
        | .ok _ =>
            match w.classifierLoad with
            | .error msg => ⟨[.error msg none w.now], [], some u⟩
            | .ok _ =>
                match w.connect with
                | .error msg => ⟨[.error msg none w.now], [.connect], some u⟩
                | .ok _ =>
                    match w.getUnread with
                    | .error msg =>
                        ⟨[.error msg none w.now],
                         [.connect, .getUnread, .disconnect], some u⟩
                    | .ok unread =>
                        let steps := unread.map (processEmail w)
                        ⟨(steps.map Prod.fst).flatten,
                         [.connect, .getUnread] ++ (steps.map Prod.snd).flatten
                           ++ [.disconnect],
                         some { u with last_sync_time := some w.now }⟩

/-- Test for an `error` event that carries the given email id. -/
def isErrorWithId (i : Nat) : Event → Bool
  | .error _ (some j) _ => j = i
  | _ => false

/-- Test for a `new_email` event with the given email id. -/
def isNewEmailWithId (i : Nat) : Event → Bool
  | .new_email j _ _ _ => j = i
  | _ => false

/-- Fetch-or-classify failure of one message in the given world, the
situation clause 5 of the spec is about. -/
def fetchOrClassifyFails (w : World) (e : EmailMeta) : Prop :=
  (∃ msg, w.fetch e.id = .error msg) ∨
  (∃ d msg, w.fetch e.id = .ok d ∧ w.classify (emailText d) = .error msg)

/-! ## Notification stream (`app/api/monitoring.py`) -/

/-- Actions the SSE machinery performs on the pub/sub medium and the client
connection, in order.  Only the prefix of `event_generator` before its
infinite listen loop matters to the claims; the loop itself is elided. -/
inductive SSEAction where
  | subscribe (channel : String)
  | yieldConnected (user_id : Nat)
deriving DecidableEq, Repr

/-- The per-user channel name used by both producer and consumer:
`f"email_events:user:{user_id}"`. -/
def channelName (user_id : Nat) : String :=
  "email_events:user:" ++ toString user_id

/-- Initial actions of `event_generator(user_id)` once iterated: subscribe
to the user channel, then yield the `connected` event. -/
def event_generator (user_id : Nat) : List SSEAction :=
  [.subscribe (channelName user_id), .yieldConnected user_id]

/-- The authenticated user as seen by the endpoint dependency. -/
structure SSEUser where
  id : Nat
  is_monitoring : Bool
deriving DecidableEq, Repr

/-- Model of `sse_endpoint(current_user)`: if `is_monitoring` is false,
raise `HTTPException(403)` before touching the generator; otherwise return
the streaming response driven by `event_generator`.  The error value is the
HTTP status code. -/
def sse_endpoint (current_user : SSEUser) : Except Nat (List SSEAction) :=
  if !current_user.is_monitoring then .error 403
  else .ok (event_generator current_user.id)

/-- Count of subscribe actions an endpoint outcome performs. -/
def subscribeCount : Except Nat (List SSEAction) → Nat
  | .error _ => 0
  | .ok acts => acts.countP (fun a => match a with | .subscribe _ => true | _ => false)

/-! ## Classifier (`app/services/spam_classifier.py`) -/

/-- State of a `SpamClassifier` instance.  `F` is the feature-vector type
produced by the TF-IDF vectorizer.  The frozen artefacts loaded once at
startup — the vectorizer, the model's `predict`, the optional
`predict_proba`, the NLTK tokenizer, stop-word set and lemmatizer — are
deterministic functions; the Python methods never reassign any of these
fields after `__init__`. -/
structure SpamClassifier (F : Type) where
  loaded : Bool
  vectorizer_transform : String → F
  model_predict : F → Nat
  model_proba : Option (F → ℚ)
  tokenize : String → List String
  stop_words : List String
  lemmatize : String → String

namespace SpamClassifier

/-- Step 2 of `preprocess_text`: `re.sub(r'\d+', '', text)`. -/
def removeDigits (t : String) : String :=
  ⟨t.data.filter (fun ch => !ch.isDigit)⟩

/-- Step 3 of `preprocess_text`: `re.sub(r'[^\w\s]', '', text)` keeps word
characters (letters, digits, underscore) and whitespace. -/
def removePunctuation (t : String) : String :=
  ⟨t.data.filter (fun ch => ch.isAlphanum || ch = '_' || ch.isWhitespace)⟩

/-- Model of `preprocess_text(text)`: empty input short-circuits; otherwise
lowercase, strip digits, strip punctuation, tokenize, drop stop words while
lemmatizing, and rejoin with single spaces. -/
def preprocess_text {F : Type} (c : SpamClassifier F) (text : String) : String :=
  if text = "" then ""
  else
    let t := removePunctuation (removeDigits text.toLower)
    let tokens := c.tokenize t
    let cleaned := (tokens.filter (fun tok => !c.stop_words.contains tok)).map c.lemmatize
    String.intercalate " " cleaned

/-- Model of `predict_with_confidence(email_text)`: guard on loaded
artefacts, preprocess, vectorize, predict; confidence is the maximum class
probability when `predict_proba` exists, else `1.0`.  The classifier state
is returned alongside the result: the method reads `self` but never writes
it, so the state comes back unchanged. -/
def predict_with_confidence {F : Type} (c : SpamClassifier F)
    (email_text : String) : Except String ((Bool × ℚ) × SpamClassifier F) :=
  if !c.loaded then .error "Model not loaded. Cannot make predictions."
  else
    let processed := c.preprocess_text email_text
    let features := c.vectorizer_transform processed
    let prediction := c.model_predict features
    let confidence : ℚ :=
      match c.model_proba with
      | some proba => proba features
      | none => 1
    .ok ((prediction == 1, confidence), c)

end SpamClassifier

/-! ## Theorems -/

/-- Auxiliary: events produced for a message with a different id never
match `isErrorWithId i`. -/
lemma processEmail_not_errorWithId (w : World) (x : EmailMeta) (i : Nat)
    (h : x.id ≠ i) : ∀ ev ∈ (processEmail w x).1, ¬ isErrorWithId i ev := by
  intro ev hev
  unfold processEmail at hev
  rcases hf : w.fetch x.id with msg | d
  · rw [hf] at hev
    simp at hev
    subst hev
    simp [isErrorWithId, h]
  · rw [hf] at hev
    dsimp only at hev
    rcases hc : w.classify (emailText d) with msg | p
    · rw [hc] at hev
      simp at hev
      subst hev
      simp [isErrorWithId, h]
    · rw [hc] at hev
      dsimp only at hev
      obtain ⟨spam, conf⟩ := p
      cases spam
      · simp at hev
        subst hev
        simp [isErrorWithId]
      · rcases hm : w.moveResult x.id with msg | u
        · rw [hm] at hev
          simp at hev
        · rw [hm] at hev
          simp at hev
          subst hev
          simp [isErrorWithId]

/-- Auxiliary: a message whose fetch or classification fails produces
exactly one `error` event carrying its id. -/
lemma processEmail_countP_self (w : World) (e : EmailMeta)
    (h : fetchOrClassifyFails w e) :
    (processEmail w e).1.countP (isErrorWithId e.id) = 1 := by
  rcases h with ⟨msg, hf⟩ | ⟨d, msg, hf, hc⟩
  · simp [processEmail, hf, isErrorWithId]
  · simp [processEmail, hf, hc, isErrorWithId]

/-- Auxiliary: batches of messages whose ids all differ from `i` contribute
no `error` event with id `i`. -/
lemma flatten_countP_zero (w : World) (i : Nat) (t : List EmailMeta)
    (h : ∀ x ∈ t, x.id ≠ i) :
    ((t.map (fun x => (processEmail w x).1)).flatten).countP (isErrorWithId i) = 0 := by
  rw [List.countP_eq_zero]
  intro ev hev
  rw [List.mem_flatten] at hev
  obtain ⟨l, hl, hevl⟩ := hev
  rw [List.mem_map] at hl
  obtain ⟨x, hx, rfl⟩ := hl
  exact processEmail_not_errorWithId w x i (h x hx) ev hevl

/-- Auxiliary: over a batch with pairwise distinct ids containing a failing
message `e`, the flattened event stream holds exactly one `error` event with
id `e.id`. -/
lemma flatten_countP_one (w : World) (e : EmailMeta) (L : List EmailMeta)
    (hmem : e ∈ L) (hnd : (L.map EmailMeta.id).Nodup)
    (hfail : fetchOrClassifyFails w e) :
    ((L.map (fun x => (processEmail w x).1)).flatten).countP (isErrorWithId e.id) = 1 := by
  induction L with
  | nil => cases hmem
  | cons a t ih =>
      rw [List.map_cons, List.flatten_cons, List.countP_append]
      rw [List.map_cons, List.nodup_cons] at hnd
      rcases List.mem_cons.mp hmem with rfl | hmem'
      · have hz : ∀ x ∈ t, x.id ≠ e.id := by
          intro x hx hEq
          exact hnd.1 (hEq ▸ List.mem_map_of_mem EmailMeta.id hx)
        rw [processEmail_countP_self w e hfail, flatten_countP_zero w e.id t hz]
      · have hane : a.id ≠ e.id := by
          intro hEq
          exact hnd.1 (hEq ▸ List.mem_map_of_mem EmailMeta.id hmem')
        have h0 : (processEmail w a).1.countP (isErrorWithId e.id) = 0 := by
          rw [List.countP_eq_zero]
          exact processEmail_not_errorWithId w a e.id hane
        rw [h0, ih hmem' hnd.2]

/-- Auxiliary: shape of a successful job invocation. -/
lemma monitor_success_shape (w : World) (u : UserRec) (pw : String)
    (unread : List EmailMeta)
    (hu : w.user = some u) (ha : u.is_active = true) (hm : u.is_monitoring = true)
    (hd : w.decrypt = .ok pw) (hcl : w.classifierLoad = .ok ())
    (hconn : w.connect = .ok ()) (hun : w.getUnread = .ok unread) :
    (monitor_user_emails w).events
      = (unread.map (fun x => (processEmail w x).1)).flatten ∧
    (monitor_user_emails w).user
      = some { u with last_sync_time := some w.now } := by
  simp [monitor_user_emails, hu, ha, hm, hd, hcl, hconn, hun, List.map_map,
    Function.comp_def]

/-- C1: for every user whose state has `is_active` false or `is_monitoring`
false (or who does not exist) at dispatch time, a monitoring-job invocation
for that user is a no-op: it performs zero mail-session operations and
publishes zero events. -/
theorem c1_monitoring_noop_for_disabled_user (w : World)
    (h : w.user = none ∨
      ∃ u, w.user = some u ∧ (u.is_active = false ∨ u.is_monitoring = false)) :
    (monitor_user_emails w).events = [] ∧ (monitor_user_emails w).mailOps = [] := by
  rcases h with h | ⟨u, hu, hf | hf⟩
  · simp [monitor_user_emails, h]
  · simp [monitor_user_emails, hu, hf]
  · simp [monitor_user_emails, hu, hf]

/-- Example world: the user row exists but has monitoring switched off. -/
def wNotMonitoring : World :=
  { user := some ⟨true, false, some 5⟩
    decrypt := .ok "pw"
    classifierLoad := .ok ()
    connect := .ok ()
    getUnread := .ok [⟨1⟩]
    fetch := fun _ => .ok ⟨"s", "f", "p", "h"⟩
    classify := fun _ => .ok (false, 1)
    moveResult := fun _ => .ok ()
    now := 10 }

/-- Witness for C1 at a concrete world. -/
theorem c1_witness :
    (monitor_user_emails wNotMonitoring).events = [] ∧
    (monitor_user_emails wNotMonitoring).mailOps = [] :=
  c1_monitoring_noop_for_disabled_user wNotMonitoring
    (Or.inr ⟨⟨true, false, some 5⟩, rfl, Or.inr rfl⟩)

/-- C2: for every invocation in which opening the mail session fails with a
connection error, the job publishes exactly one `error` event for the user
(the event list is that singleton), performs exactly one connection attempt
(no retry, no further session operation), and leaves the user row — in
particular `last_sync_time` — unchanged. -/
theorem c2_connect_failure_one_error_event (w : World) (u : UserRec)
    (pw msg : String)
    (hu : w.user = some u) (ha : u.is_active = true) (hm : u.is_monitoring = true)
    (hd : w.decrypt = .ok pw) (hcl : w.classifierLoad = .ok ())
    (hconn : w.connect = .error msg) :
    (monitor_user_emails w).events = [.error msg none w.now] ∧
    (monitor_user_emails w).mailOps = [.connect] ∧
    (monitor_user_emails w).user = some u := by
  simp [monitor_user_emails, hu, ha, hm, hd, hcl, hconn]

/-- Example world: connecting to the IMAP server fails. -/
def wConnFail : World :=
  { user := some ⟨true, true, some 5⟩
    decrypt := .ok "pw"
    classifierLoad := .ok ()
    connect := .error "Failed to connect to IMAP server: refused"
    getUnread := .ok []
    fetch := fun _ => .ok ⟨"s", "f", "p", "h"⟩
    classify := fun _ => .ok (false, 1)
    moveResult := fun _ => .ok ()
    now := 10 }

/-- Witness for C2 at a concrete world. -/
theorem c2_witness :
    (monitor_user_emails wConnFail).events
      = [.error "Failed to connect to IMAP server: refused" none 10] ∧
    (monitor_user_emails wConnFail).mailOps = [.connect] ∧
    (monitor_user_emails wConnFail).user = some ⟨true, true, some 5⟩ :=
  c2_connect_failure_one_error_event wConnFail ⟨true, true, some 5⟩ "pw"
    "Failed to connect to IMAP server: refused" rfl rfl rfl rfl rfl rfl

/-- C3: within one invocation whose session opened successfully, every
message whose fetch or classification fails yields exactly one `error`
event carrying that message's id; every message of the batch (failing or
not) contributes its events to the published stream (processing continues);
and after the batch `last_sync_time` is updated and persisted regardless of
the per-message failures. -/
theorem c3_per_message_failure_isolated (w : World) (u : UserRec) (pw : String)
    (unread : List EmailMeta) (e : EmailMeta)
    (hu : w.user = some u) (ha : u.is_active = true) (hm : u.is_monitoring = true)
    (hd : w.decrypt = .ok pw) (hcl : w.classifierLoad = .ok ())
    (hconn : w.connect = .ok ()) (hun : w.getUnread = .ok unread)
    (hmem : e ∈ unread) (hnd : (unread.map EmailMeta.id).Nodup)
    (hfail : fetchOrClassifyFails w e) :
    (monitor_user_emails w).events.countP (isErrorWithId e.id) = 1 ∧
    (∀ e' ∈ unread, ((processEmail w e').1).Sublist (monitor_user_emails w).events) ∧
    (monitor_user_emails w).user = some { u with last_sync_time := some w.now } := by
  obtain ⟨hev, huser⟩ := monitor_success_shape w u pw unread hu ha hm hd hcl hconn hun
  refine ⟨?_, ?_, huser⟩
  · rw [hev]
    exact flatten_countP_one w e unread hmem hnd hfail
  · intro e' he'
    rw [hev]
    exact List.sublist_flatten_of_mem
      (List.mem_map_of_mem (fun x => (processEmail w x).1) he')

/-- Example world for C3: two unread messages, the first one fails to
fetch, the second is legitimate. -/
def wPartialFail : World :=
  { user := some ⟨true, true, some 5⟩
    decrypt := .ok "pw"
    classifierLoad := .ok ()
    connect := .ok ()
    getUnread := .ok [⟨1⟩, ⟨2⟩]
    fetch := fun i => if i = 1 then .error "fetch boom" else .ok ⟨"s", "f", "p", "h"⟩
    classify := fun _ => .ok (false, 1)
    moveResult := fun _ => .ok ()
    now := 10 }

/-- Witness for C3 at a concrete world. -/
theorem c3_witness :
    (monitor_user_emails wPartialFail).events.countP (isErrorWithId 1) = 1 ∧
    (monitor_user_emails wPartialFail).user = some ⟨true, true, some 10⟩ :=
  have h := c3_per_message_failure_isolated wPartialFail ⟨true, true, some 5⟩ "pw"
    [⟨1⟩, ⟨2⟩] ⟨1⟩ rfl rfl rfl rfl rfl rfl rfl (by decide) (by decide)
    (Or.inl ⟨"fetch boom", rfl⟩)
  ⟨h.1, h.2.2⟩

/-- A freshly connected session (the state `connect` returns). -/
def svcConn : IMAPService := ⟨some ⟨false, none⟩⟩

/-- Example mailbox with three messages in INBOX, one unread. -/
def mbSmall : Mailbox := fun f =>
  if f = "INBOX" then [⟨1, true, false⟩, ⟨2, false, false⟩, ⟨3, true, false⟩] else []

/-- Counterexample to C4 as stated: over `mbSmall` the first page
(`offset=0, limit=2`) selects the window consisting of the ids 3 and 2 of
the reversed (most-recent-first) sequence, but the result list is built by
iterating the fetch-response dict in server order, so the page comes back as
`[2, 3]` — not the claimed most-recent-first order `[3, 2]`. -/
theorem c4_counterexample :
    IMAPService.list_emails svcConn mbSmall "INBOX" 2 0 false
      = Except.ok (⟨some ⟨false, some ("INBOX", true)⟩⟩, [2, 3]) ∧
    ([2, 3] : List Nat)
      ≠ IMAPService.paginate (IMAPClientM.search (mbSmall "INBOX") false) 2 0 := by
  constructor
  · decide
  · decide

/-- Auxiliary: outcome of `list_emails` on a live session. -/
lemma list_emails_ok (s : IMAPService) (c : ClientM) (mb : Mailbox)
    (folder : String) (limit offset : Nat) (u : Bool)
    (hc : s.client = some c) (hl : c.loggedOut = false) :
    IMAPService.list_emails s mb folder limit offset u
      = .ok (⟨some { c with selected := some (folder, true) }⟩,
             IMAPService.fetch_response_order ((mb folder).map Msg.uid)
               (IMAPService.paginate
                 (IMAPClientM.search (mb folder) u) limit offset)) := by
  simp [IMAPService.list_emails, hc, hl]

/-- Auxiliary: the search result is a subsequence of the folder's native id
sequence. -/
lemma search_sublist (msgs : List Msg) (u : Bool) :
    (IMAPClientM.search msgs u).Sublist (msgs.map Msg.uid) := by
  cases u
  · exact List.Sublist.refl _
  · exact List.Sublist.map Msg.uid (List.filter_sublist msgs)

/-- Auxiliary: when the folder ids are distinct and the requested window is
duplicate-free and drawn from the folder, the fetch-response reordering
returns exactly the requested ids, as a permutation. -/
lemma fetch_response_order_perm (native w : List Nat)
    (hn : native.Nodup) (hw : w.Nodup) (hsub : ∀ x ∈ w, x ∈ native) :
    (IMAPService.fetch_response_order native w).Perm w := by
  unfold IMAPService.fetch_response_order
  rw [List.Nodup.dedup hn]
  apply List.Subperm.antisymm
  · apply List.Nodup.subperm (List.Nodup.filter _ hn)
    intro x hx
    simp only [List.mem_filter, decide_eq_true_eq] at hx
    exact hx.2
  · apply List.Nodup.subperm hw
    intro x hx
    simp only [List.mem_filter, decide_eq_true_eq]
    exact ⟨hsub x hx, hx⟩

/-- C4 amended: the pagination window is computed over the most-recent-first
sequence (the reverse of the server-native ascending search result), but the
messages of that window are returned in fetch-response (server-native)
order, not most-recent-first.  Consequently, over an unchanged mailbox with
distinct ids, requesting `offset=0, limit=2` and then `offset=2, limit=2`
yields exactly the first four most-recent messages with no gaps and no
repeats as an unordered batch: the concatenation of the two pages is
duplicate-free and is a permutation of the top-4 window of the reversed
sequence. -/
theorem c4_amended_window_no_gaps_no_repeats (s : IMAPService) (c : ClientM)
    (mb : Mailbox) (folder : String) (u : Bool)
    (hc : s.client = some c) (hl : c.loggedOut = false)
    (hnd : ((mb folder).map Msg.uid).Nodup) :
    ∃ s1 l1 s2 l2,
      IMAPService.list_emails s mb folder 2 0 u = .ok (s1, l1) ∧
      IMAPService.list_emails s1 mb folder 2 2 u = .ok (s2, l2) ∧
      (l1 ++ l2).Perm (((IMAPClientM.search (mb folder) u).reverse).take 4) ∧
      (l1 ++ l2).Nodup := by
  have hsearch := search_sublist (mb folder) u
  have hsnd : (IMAPClientM.search (mb folder) u).Nodup := hsearch.nodup hnd
  have hrevnd : ((IMAPClientM.search (mb folder) u).reverse).Nodup :=
    List.nodup_reverse.mpr hsnd
  have hwnd : ∀ off : Nat,
      (IMAPService.paginate (IMAPClientM.search (mb folder) u) 2 off).Nodup := by
    intro off
    exact ((List.take_sublist _ _).trans (List.drop_sublist _ _)).nodup hrevnd
  have hwsub : ∀ off : Nat,
      ∀ x ∈ IMAPService.paginate (IMAPClientM.search (mb folder) u) 2 off,
        x ∈ (mb folder).map Msg.uid := by
    intro off x hx
    have hx1 : x ∈ (IMAPClientM.search (mb folder) u).reverse :=
      ((List.take_sublist _ _).trans (List.drop_sublist _ _)).subset hx
    exact hsearch.subset (List.mem_reverse.mp hx1)
  have hp1 := fetch_response_order_perm ((mb folder).map Msg.uid)
    (IMAPService.paginate (IMAPClientM.search (mb folder) u) 2 0)
    hnd (hwnd 0) (hwsub 0)
  have hp2 := fetch_response_order_perm ((mb folder).map Msg.uid)
    (IMAPService.paginate (IMAPClientM.search (mb folder) u) 2 2)
    hnd (hwnd 2) (hwsub 2)
  have hcat : IMAPService.paginate (IMAPClientM.search (mb folder) u) 2 0
        ++ IMAPService.paginate (IMAPClientM.search (mb folder) u) 2 2
      = ((IMAPClientM.search (mb folder) u).reverse).take 4 := by
    rw [show (4 : Nat) = 2 + 2 from rfl,
        List.take_add ((IMAPClientM.search (mb folder) u).reverse) 2 2]
    simp [IMAPService.paginate]
  refine ⟨_, _, _, _, list_emails_ok s c mb folder 2 0 u hc hl,
    list_emails_ok _ { c with selected := some (folder, true) } mb folder 2 2 u
      rfl hl, ?_, ?_⟩
  · rw [← hcat]
    exact hp1.append hp2
  · refine ((hp1.append hp2).nodup_iff).mpr ?_
    rw [hcat]
    exact (List.take_sublist 4 _).nodup hrevnd

/-- Witness for the amended C4 at a concrete session and mailbox. -/
theorem c4_witness :
    ∃ s1 l1 s2 l2,
      IMAPService.list_emails svcConn mbSmall "INBOX" 2 0 false = .ok (s1, l1) ∧
      IMAPService.list_emails s1 mbSmall "INBOX" 2 2 false = .ok (s2, l2) ∧
      (l1 ++ l2).Perm (((IMAPClientM.search (mbSmall "INBOX") false).reverse).take 4) ∧
      (l1 ++ l2).Nodup :=
  c4_amended_window_no_gaps_no_repeats svcConn ⟨false, none⟩ mbSmall "INBOX" false
    rfl rfl (by decide)

/-- Example mailbox whose INBOX holds 101 messages. -/
def mb101 : Mailbox := fun f =>
  if f = "INBOX" then (List.range 101).map (fun i => ⟨i, false, false⟩) else []

set_option maxRecDepth 4096 in
/-- Counterexample to C5 as stated: `list_emails` applies no cap of its own,
so a caller-supplied `limit = 101` yields 101 messages — more than the
claimed bound of 100. -/
theorem c5_counterexample :
    IMAPService.list_emails svcConn mb101 "INBOX" 101 0 false
      = Except.ok (⟨some ⟨false, some ("INBOX", true)⟩⟩, List.range 101) ∧
    (List.range 101).length = 101 := by
  constructor
  · decide
  · simp

/-- Auxiliary: the fetch-response dict holds each requested id at most once,
so the result is never longer than the request. -/
lemma fetch_response_order_length_le (native requested : List Nat) :
    (IMAPService.fetch_response_order native requested).length
      ≤ requested.length := by
  have hnd : (IMAPService.fetch_response_order native requested).Nodup := by
    unfold IMAPService.fetch_response_order
    exact List.Nodup.filter _ (List.nodup_dedup native)
  have hsub : IMAPService.fetch_response_order native requested ⊆ requested := by
    intro x hx
    unfold IMAPService.fetch_response_order at hx
    simp only [List.mem_filter, decide_eq_true_eq] at hx
    exact hx.2
  exact (List.Nodup.subperm hnd hsub).length_le

/-- Auxiliary: the list `list_emails` returns is never longer than the
`limit` argument the caller supplied. -/
lemma list_emails_length_le (s : IMAPService) (mb : Mailbox) (folder : String)
    (limit offset : Nat) (u : Bool) (s' : IMAPService) (l : List Nat)
    (hok : IMAPService.list_emails s mb folder limit offset u = .ok (s', l)) :
    l.length ≤ limit := by
  unfold IMAPService.list_emails at hok
  rcases hcl : s.client with _ | c
  · rw [hcl] at hok
    simp at hok
  · rw [hcl] at hok
    dsimp only at hok
    rcases hlo : c.loggedOut
    · rw [hlo] at hok
      simp at hok
      obtain ⟨-, h2⟩ := hok
      rw [← h2]
      exact le_trans
        (fetch_response_order_length_le ((mb folder).map Msg.uid)
          (IMAPService.paginate (IMAPClientM.search (mb folder) u) limit offset))
        (List.length_take_le _ _)
    · rw [hlo] at hok
      simp at hok

/-- C5 amended: `list_emails` itself imposes no cap on `limit` and no check
on `offset`; the ≤ 100 cap and the `offset ≥ 0` constraint are enforced by
the callers — the HTTP endpoint validates its query parameters
(`le=100`, `ge=0`) before calling the service, and the monitoring job's
`get_unread_emails` requests `limit=100, offset=0`.  Hence every call whose
`limit` argument respects the cap, and in particular every
`get_unread_emails` call, returns at most 100 messages. -/
theorem c5_amended_cap_enforced_by_callers :
    (∀ (s : IMAPService) (mb : Mailbox) (folder : String)
       (limit offset : Nat) (u : Bool) (s' : IMAPService) (l : List Nat),
       limit ≤ 100 →
       IMAPService.list_emails s mb folder limit offset u = .ok (s', l) →
       l.length ≤ 100) ∧
    (∀ (s : IMAPService) (mb : Mailbox) (folder : String)
       (s' : IMAPService) (l : List Nat),
       IMAPService.get_unread_emails s mb folder = .ok (s', l) →
       l.length ≤ 100) := by
  constructor
  · intro s mb folder limit offset u s' l hlim hok
    exact le_trans (list_emails_length_le s mb folder limit offset u s' l hok) hlim
  · intro s mb folder s' l hok
    exact list_emails_length_le s mb folder 100 0 true s' l hok

/-- Witness for the amended C5 at concrete calls. -/
theorem c5_witness :
    (([1, 2, 3] : List Nat).length ≤ 100) ∧ (([2] : List Nat).length ≤ 100) :=
  ⟨c5_amended_cap_enforced_by_callers.1 svcConn mbSmall "INBOX" 50 0 false
      ⟨some ⟨false, some ("INBOX", true)⟩⟩ [1, 2, 3] (by decide) (by decide),
   c5_amended_cap_enforced_by_callers.2 svcConn mbSmall "INBOX"
      ⟨some ⟨false, some ("INBOX", true)⟩⟩ [2] (by decide)⟩

/-- A session that has been opened and then closed: `disconnect` issues the
logout but leaves `self.client` set. -/
def svcClosed : IMAPService := IMAPService.disconnect ⟨some ⟨false, none⟩⟩

/-- The empty server. -/
def mbEmpty : Mailbox := fun _ => []

/-- Counterexample to C6 as stated: on a session that has been closed, an
operation is NOT rejected by the service's precondition guard — `disconnect`
keeps `self.client` set, so `list_folders` passes the guard and proceeds to
the underlying (logged-out) client, where it fails at protocol level
instead. -/
theorem c6_counterexample :
    svcClosed.client = some ⟨true, none⟩ ∧
    IMAPService.list_folders svcClosed ["INBOX"]
      = Except.error IMAPService.OpError.protocol ∧
    IMAPService.list_folders svcClosed ["INBOX"]
      ≠ Except.error (IMAPService.OpError.precondition IMAPService.notConnectedMsg) := by
  refine ⟨rfl, rfl, ?_⟩
  decide

/-- C6 amended: an operation invoked on a session that was never connected
(`self.client` is `None`) fails with the precondition error; but a closed
session is not rejected by that guard, because `disconnect` never clears
`self.client` — it only marks the underlying client logged out, so
operations on a closed session proceed into the client library. -/
theorem c6_amended_precondition_guard (mb : Mailbox) :
    (∀ (s : IMAPService) (serverFolders : List String)
       (folder src dst : String) (id limit offset : Nat) (u : Bool),
      s.client = none →
      IMAPService.list_folders s serverFolders
        = .error (.precondition IMAPService.notConnectedMsg) ∧
      IMAPService.list_emails s mb folder limit offset u
        = .error (.precondition IMAPService.notConnectedMsg) ∧
      IMAPService.get_email_detail s mb id folder
        = .error (.precondition IMAPService.notConnectedMsg) ∧
      IMAPService.mark_as_read s mb id folder
        = .error (.precondition IMAPService.notConnectedMsg) ∧
      IMAPService.mark_as_unread s mb id folder
        = .error (.precondition IMAPService.notConnectedMsg) ∧
      IMAPService.move_email s mb id src dst
        = .error (.precondition IMAPService.notConnectedMsg) ∧
      IMAPService.delete_email s mb id folder
        = .error (.precondition IMAPService.notConnectedMsg)) ∧
    (∀ (s : IMAPService) (c : ClientM), s.client = some c →
      (IMAPService.disconnect s).client = some { c with loggedOut := true }) := by
  constructor
  · intro s serverFolders folder src dst id limit offset u hnone
    refine ⟨?_, ?_, ?_, ?_, ?_, ?_, ?_⟩ <;>
      simp [IMAPService.list_folders, IMAPService.list_emails,
        IMAPService.get_email_detail, IMAPService.mark_as_read,
        IMAPService.mark_as_unread, IMAPService.move_email,
        IMAPService.delete_email, hnone]
  · intro s c hc
    simp [IMAPService.disconnect, hc]

/-- Witness for the amended C6 at concrete states. -/
theorem c6_witness :
    (IMAPService.list_folders IMAPService.init ["INBOX"]
       = .error (.precondition IMAPService.notConnectedMsg) ∧
     IMAPService.list_emails IMAPService.init mbEmpty "INBOX" 50 0 false
       = .error (.precondition IMAPService.notConnectedMsg) ∧
     IMAPService.get_email_detail IMAPService.init mbEmpty 1 "INBOX"
       = .error (.precondition IMAPService.notConnectedMsg) ∧
     IMAPService.mark_as_read IMAPService.init mbEmpty 1 "INBOX"
       = .error (.precondition IMAPService.notConnectedMsg) ∧
     IMAPService.mark_as_unread IMAPService.init mbEmpty 1 "INBOX"
       = .error (.precondition IMAPService.notConnectedMsg) ∧
     IMAPService.move_email IMAPService.init mbEmpty 1 "INBOX" "Spam"
       = .error (.precondition IMAPService.notConnectedMsg) ∧
     IMAPService.delete_email IMAPService.init mbEmpty 1 "INBOX"
       = .error (.precondition IMAPService.notConnectedMsg)) ∧
    (IMAPService.disconnect ⟨some ⟨false, none⟩⟩).client = some ⟨true, none⟩ :=
  ⟨(c6_amended_precondition_guard mbEmpty).1 IMAPService.init ["INBOX"]
      "INBOX" "INBOX" "Spam" 1 50 0 false rfl,
   (c6_amended_precondition_guard mbEmpty).2 ⟨some ⟨false, none⟩⟩ ⟨false, none⟩ rfl⟩

/-- Auxiliary: outcome of `move_email` on a live session. -/
lemma move_email_ok (s : IMAPService) (c : ClientM) (mb : Mailbox) (id : Nat)
    (A B : String) (hc : s.client = some c) (hl : c.loggedOut = false) :
    IMAPService.move_email s mb id A B
      = .ok (⟨some { c with selected := some (A, false) }⟩,
             IMAPClientM.expunge
               (IMAPClientM.add_flags_deleted
                 (IMAPClientM.copy mb [id] A B) [id] A) A) := by
  simp [IMAPService.move_email, hc, hl]

/-- Auxiliary: the copy/flag/expunge sequence of one `move_email` touches the
destination folder only through the copy step. -/
lemma move_mailbox_at_dest (mb : Mailbox) (id : Nat) (A B : String)
    (hAB : A ≠ B) :
    (IMAPClientM.expunge
      (IMAPClientM.add_flags_deleted (IMAPClientM.copy mb [id] A B) [id] A) A) B
      = mb B ++ (mb A).filter (fun m => m.uid ∈ [id]) := by
  simp [IMAPClientM.expunge, IMAPClientM.add_flags_deleted, IMAPClientM.copy,
    setFolder, Ne.symm hAB]

/-- C7: if the message `id` is present in folder `A` of an unchanged-by-others
mailbox and the session is live, `move(id, A, B)` immediately followed by a
repeated `move(id, A, B)` never loses the message: both moves run, and after
the sequence the message id exists in `B` (possibly duplicated). -/
theorem c7_double_move_never_loses (s : IMAPService) (c : ClientM)
    (mb : Mailbox) (id : Nat) (A B : String)
    (hc : s.client = some c) (hl : c.loggedOut = false)
    (hAB : A ≠ B) (hin : id ∈ (mb A).map Msg.uid) :
    ∃ s1 mb1 s2 mb2,
      IMAPService.move_email s mb id A B = .ok (s1, mb1) ∧
      IMAPService.move_email s1 mb1 id A B = .ok (s2, mb2) ∧
      id ∈ (mb2 B).map Msg.uid := by
  refine ⟨_, _, _, _, move_email_ok s c mb id A B hc hl,
    move_email_ok _ { c with selected := some (A, false) } _ id A B rfl hl, ?_⟩
  rw [move_mailbox_at_dest _ id A B hAB, move_mailbox_at_dest mb id A B hAB]
  obtain ⟨m, hm, hmid⟩ := List.mem_map.mp hin
  refine List.mem_map.mpr ⟨m, ?_, hmid⟩
  refine List.mem_append_left _ (List.mem_append_right _ ?_)
  refine List.mem_filter.mpr ⟨hm, ?_⟩
  simp [hmid]

/-- Example mailbox for the move claims: INBOX holds the target message and
one other message already flagged deleted; Spam exists and is empty. -/
def mbMove : Mailbox := fun f =>
  if f = "INBOX" then [⟨1, false, false⟩, ⟨2, true, true⟩] else []

/-- Witness for C7 at a concrete mailbox. -/
theorem c7_witness :
    ∃ s1 mb1 s2 mb2,
      IMAPService.move_email svcConn mbMove 1 "INBOX" "Spam" = .ok (s1, mb1) ∧
      IMAPService.move_email s1 mb1 1 "INBOX" "Spam" = .ok (s2, mb2) ∧
      1 ∈ (mb2 "Spam").map Msg.uid :=
  c7_double_move_never_loses svcConn ⟨false, none⟩ mbMove 1 "INBOX" "Spam"
    rfl rfl (by decide) (by decide)

/-- C10: `move_email` ends with an unconditional `expunge()` of the selected
source folder, so every message flagged `\Deleted` there — not only the one
being moved — is permanently removed: after the move, a previously present
flagged message `m` with a different uid is gone from the source folder, and
no flagged message remains there at all. -/
theorem c10_expunge_purges_all_flagged (s : IMAPService) (c : ClientM)
    (mb : Mailbox) (id : Nat) (A B : String) (m : Msg)
    (hc : s.client = some c) (hl : c.loggedOut = false)
    (_hm : m ∈ mb A) (hdel : m.deleted = true) (_hne : m.uid ≠ id) :
    ∃ s1 mb1,
      IMAPService.move_email s mb id A B = .ok (s1, mb1) ∧
      m ∉ mb1 A ∧
      ∀ x ∈ mb1 A, x.deleted = false := by
  refine ⟨_, _, move_email_ok s c mb id A B hc hl, ?_, ?_⟩
  · intro hmem
    rw [IMAPClientM.expunge] at hmem
    rw [setFolder] at hmem
    simp only [if_pos rfl] at hmem
    have := (List.mem_filter.mp hmem).2
    rw [hdel] at this
    simp at this
  · intro x hx
    rw [IMAPClientM.expunge] at hx
    rw [setFolder] at hx
    simp only [if_pos rfl] at hx
    have := (List.mem_filter.mp hx).2
    simpa using this

/-- Witness for C10 at a concrete mailbox. -/
theorem c10_witness :
    ∃ s1 mb1,
      IMAPService.move_email svcConn mbMove 1 "INBOX" "Spam" = .ok (s1, mb1) ∧
      (⟨2, true, true⟩ : Msg) ∉ mb1 "INBOX" ∧
      ∀ x ∈ mb1 "INBOX", x.deleted = false :=
  c10_expunge_purges_all_flagged svcConn ⟨false, none⟩ mbMove 1 "INBOX" "Spam"
    ⟨2, true, true⟩ rfl rfl (by decide) rfl (by decide)

/-- C8: a notification stream opened for a user whose `is_monitoring` flag
is false is rejected with the forbidden error (HTTP 403) before any event
bus subscription is created: the rejected path performs zero subscribe
operations. -/
theorem c8_sse_rejected_before_subscribe (u : SSEUser)
    (h : u.is_monitoring = false) :
    sse_endpoint u = .error 403 ∧ subscribeCount (sse_endpoint u) = 0 := by
  simp [sse_endpoint, subscribeCount, h]

/-- Witness for C8 at a concrete user. -/
theorem c8_witness :
    sse_endpoint ⟨7, false⟩ = .error 403 ∧
    subscribeCount (sse_endpoint ⟨7, false⟩) = 0 :=
  c8_sse_rejected_before_subscribe ⟨7, false⟩ rfl

/-- C9: classification is deterministic and stateless — calling
`predict_with_confidence` twice on the same text (the second call on the
classifier value the first call returned) yields the identical
`(is_spam, confidence)` pair, and neither call changes the classifier
state. -/
theorem c9_classifier_deterministic {F : Type} (c : SpamClassifier F)
    (t : String) (r1 r2 : Bool × ℚ) (c1 c2 : SpamClassifier F)
    (h1 : SpamClassifier.predict_with_confidence c t = .ok (r1, c1))
    (h2 : SpamClassifier.predict_with_confidence c1 t = .ok (r2, c2)) :
    r1 = r2 ∧ c1 = c ∧ c2 = c := by
  unfold SpamClassifier.predict_with_confidence at h1 h2
  rcases hld : c.loaded
  · rw [hld] at h1
    simp at h1
  · rw [hld] at h1
    simp at h1
    obtain ⟨hr1, hc1⟩ := h1
    subst hc1
    rw [hld] at h2
    simp at h2
    obtain ⟨hr2, hc2⟩ := h2
    subst hc2
    rw [← hr1, ← hr2]
    exact ⟨rfl, rfl, rfl⟩

/-- Concrete classifier instance for the witness: a loaded model whose
frozen scoring function always answers spam without probabilities. -/
def cEx : SpamClassifier Nat :=
  { loaded := true
    vectorizer_transform := fun s => s.length
    model_predict := fun _ => 1
    model_proba := none
    tokenize := fun s => s.splitOn " "
    stop_words := ["the"]
    lemmatize := fun t => t }

/-- Witness for C9 at a concrete classifier and text. -/
theorem c9_witness :
    ((true, (1 : ℚ)) = (true, (1 : ℚ))) ∧ cEx = cEx ∧ cEx = cEx :=
  c9_classifier_deterministic cEx "win the free prize now" (true, 1) (true, 1)
    cEx cEx rfl rfl
